import Mathlib

/-!
Verification of the papertrail-rag orchestration core against its
natural-language specification.

The Python sources are shallowly embedded:
  * `Document`, `RAGState` model the pydantic data records
    (src/state/state.py, langchain_core `Document`);
  * `VectorStore` models src/vectorstore/vectorstore.py, with the FAISS
    nearest-neighbour search abstracted as an explicit function parameter
    and the mutation of `retriever.search_kwargs` made explicit by state
    passing;
  * fallible Python code becomes `Except PyErr`; a raised `ValueError`,
    `AttributeError` or `RuntimeError` is the corresponding `PyErr`
    constructor.
-/

set_option autoImplicit false

namespace PapertrailRag

/-- A langchain `Document`: text content plus a string-keyed metadata
mapping (modelled as an association list). -/
structure Document where
  page_content : String
  metadata : List (String × String) := []
  deriving DecidableEq, Repr

/-- `RAGState` (src/state/state.py): the pydantic workflow state with
declared fields `query`, `retrieved_docs` (default `[]`) and `response`
(default `""`). -/
structure RAGState where
  query : String
  retrieved_docs : List Document := []
  response : String := ""
  deriving DecidableEq, Repr

/-- Python exceptions raised by the embedded code. -/
inductive PyErr where
  | valueError : String → PyErr
  | attributeError : String → PyErr
  | runtimeError : String → PyErr
  deriving DecidableEq, Repr

/-- Python truthiness chain `a or b` for an optional string `a`
(`None` and `""` are falsy). -/
def pyOrStr (a : Option String) (b : String) : String :=
  match a with
  | some s => if s = "" then b else s
  | none => b

/-- `dict.get` on an association-list metadata mapping. -/
def dictGet (m : List (String × String)) (key : String) : Option String :=
  (m.find? (fun p => p.1 = key)).map (fun p => p.2)

/-- ASCII lower-casing of one character (`str.lower` acts on the ASCII
letters involved here). -/
def lowerChar (c : Char) : Char :=
  if c.toNat ≥ 65 && c.toNat ≤ 90 then Char.ofNat (c.toNat + 32) else c

/-- Python `str.lower` on the ASCII strings the code compares. -/
def strLower (s : String) : String :=
  String.mk (s.toList.map lowerChar)

/-- Case-insensitive string equality (ASCII folding), the comparison the
claims mean by "case-insensitive". -/
def eqCaseInsensitive (a b : String) : Bool :=
  strLower a == strLower b

/-! ## Vector store (src/vectorstore/vectorstore.py)

`FAISS.from_documents` is modelled as remembering the indexed documents;
`as_retriever(search_kwargs={"k": k})` as a retriever record storing `k`.
The similarity search itself is an opaque collaborator, passed in as a
function `List Document → String → Nat → List Document` (indexed docs,
query, k).  Python mutation of `self` is modelled by returning the updated
`VectorStore` value. -/

/-- The retriever handle: `search_kwargs["k"]` is its stored default
result count. -/
structure Retriever where
  search_k : Nat
  deriving DecidableEq, Repr

/-- `VectorStore.__init__`: both `self.vectorstore` and `self.retriever`
start as `None`. -/
structure VectorStore where
  vectorstore : Option (List Document) := none
  retriever : Option Retriever := none
  deriving DecidableEq, Repr

/-- The `ValueError` message raised when the store is used before
`create_retriever`. -/
def notInitializedMsg : String :=
  "Vector store is not initialized. Call create_retriever first."

/-- `VectorStore.create_retriever(documents, k=4)`: rejects an empty
document list, otherwise builds the index and a retriever whose
`search_kwargs` remember `k`. -/
def create_retriever (vs : VectorStore) (documents : List Document)
    (k : Nat := 4) : Except PyErr VectorStore :=
  if documents = [] then
    .error (.valueError "Cannot create vector store with an empty document list.")
  else
    .ok { vs with
          vectorstore := some documents
          retriever := some { search_k := k } }

/-- `VectorStore.get_retriever()`: raises until `create_retriever` has
succeeded. -/
def get_retriever (vs : VectorStore) : Except PyErr Retriever :=
  match vs.retriever with
  | none => .error (.valueError notInitializedMsg)
  | some r => .ok r

/-- `VectorStore.retrieve(query, k=4)`: raises until `create_retriever`
has succeeded; otherwise executes `self.retriever.search_kwargs["k"] = k`
(a mutation of the stored retriever, reflected in the returned
`VectorStore`) and runs the similarity search with the new `k`. -/
def retrieve (search : List Document → String → Nat → List Document)
    (vs : VectorStore) (query : String) (k : Nat := 4) :
    Except PyErr (List Document × VectorStore) :=
  match vs.retriever with
  | none => .error (.valueError notInitializedMsg)
  | some r =>
      let r' : Retriever := { r with search_k := k }
      let vs' : VectorStore := { vs with retriever := some r' }
      .ok (search (vs.vectorstore.getD []) query k, vs')

/-! ## Workflow nodes, single-shot variant (src/nodes/nodes.py)

The language model is an opaque collaborator `String → LLMMessage`
(`llm.invoke(prompt)` returns a message whose `.content` is read).  The
retriever bound at construction is an opaque `String → List Document`
(`self.retriever.invoke(query)`). -/

/-- Result of `llm.invoke`: a message carrying `content`. -/
structure LLMMessage where
  content : String
  deriving DecidableEq, Repr

/-- Dynamic attribute access `state.<name>` on the pydantic `RAGState`
for a documents-valued attribute: the model declares only
`retrieved_docs`; any other name raises `AttributeError`. -/
def ragStateDocAttr (s : RAGState) (name : String) :
    Except PyErr (List Document) :=
  if name = "retrieved_docs" then .ok s.retrieved_docs
  else .error (.attributeError name)

namespace Nodes

/-- `RAGNodes.retrieve_docs` (nodes.py): builds a new `RAGState` from
`query` and the retrieved docs; `response` is not passed, so it takes the
pydantic field default `""`. -/
def retrieve_docs (retrieverFn : String → List Document) (s : RAGState) :
    RAGState :=
  { query := s.query
    retrieved_docs := retrieverFn s.query }

/-- The f-string prompt template of `RAGNodes.generate_answer`
(nodes.py). -/
def promptOf (context query : String) : String :=
  "\n        Answer the query based on the context provided\n        \n        Context: \n            "
    ++ context ++ "\n            \n        query: " ++ query ++ "\n        \n        "

/-- `RAGNodes.generate_answer` (nodes.py): joins the retrieved contents
with the literal separator `"/n/n"`, invokes the llm, then builds the new
state reading `state.documents` — an attribute `RAGState` does not
declare. -/
def generate_answer (llm : String → LLMMessage) (s : RAGState) :
    Except PyErr RAGState := do
  let context := String.intercalate "/n/n"
    (s.retrieved_docs.map (fun d => d.page_content))
  let response := llm (promptOf context s.query)
  let docs ← ragStateDocAttr s "documents"
  .ok { query := s.query
        retrieved_docs := docs
        response := response.content }

end Nodes

/-! ## Workflow nodes, agentic variant (src/nodes/reactnode.py)

The ReAct agent built by `create_agent` is an opaque collaborator: its
`invoke({"messages": [HumanMessage(query)]})` result is modelled as the
list of messages it returns, each with an optional `content`
(`getattr(msg, "content", None)`). -/

/-- A message of the agent conversation; `content` is `none` when the
message object has no `content` attribute. -/
structure Message where
  content : Option String := none
  deriving DecidableEq, Repr

namespace ReactNode

/-- `RAGNodes.retrieve_docs` (reactnode.py): populates `retrieved_docs`
and passes `query` and `response` through from the previous state. -/
def retrieve_docs (retrieverFn : String → List Document) (s : RAGState) :
    RAGState :=
  { query := s.query
    retrieved_docs := retrieverFn s.query
    response := s.response }

/-- `retriever_tool_fn` (reactnode.py `_build_tools`): the retriever tool
of the agent.  Empty retrieval returns the sentinel; otherwise the
first 8 docs are rendered as numbered blocks joined by blank lines. -/
def titleOf (i : Nat) (d : Document) : String :=
  pyOrStr (dictGet d.metadata "title")
    (pyOrStr (dictGet d.metadata "source") ("doc_" ++ toString i))

/-- One rendered block `[i] title` newline `content` of
`retriever_tool_fn`, for the 1-based index `i`. -/
def numberedBlock (i : Nat) (d : Document) : String :=
  "[" ++ toString i ++ "] " ++ titleOf i d ++ "\n" ++ d.page_content

/-- `retriever_tool_fn` itself (reactnode.py lines 42-55). -/
def retriever_tool_fn (retrieverFn : String → List Document)
    (query : String) : String :=
  let docs := retrieverFn query
  if docs = [] then "No documents found."
  else
    String.intercalate "\n\n"
      ((docs.take 8).enum.map (fun p => numberedBlock (p.1 + 1) p.2))

/-- `RAGNodes.generate_answer` (reactnode.py): invoke the agent on the
query, take the `content` of the last message (or `None` when no message was
produced), and fall back to the fixed string when the answer is falsy.
The lazy `_build_agent` construction is behaviour-neutral here: the
built agent is the `agent` parameter. -/
def generate_answer (agent : String → List Message) (s : RAGState) :
    RAGState :=
  let messages := agent s.query
  let answer : Option String :=
    match messages.getLast? with
    | some m => m.content
    | none => none
  { query := s.query
    retrieved_docs := s.retrieved_docs
    response := pyOrStr answer "Could not generate response." }

end ReactNode

/-! ## Graph builder (src/graph_builder/graph_builder.py)

The langgraph `StateGraph` builder API is embedded just far enough for
`GraphBuilder.build`: `add_node` rejects a duplicate node name with
`ValueError`, and `compile` validates that every edge endpoint is a
declared node or the END sentinel. -/

/-- The two node functions `GraphBuilder.build` wires. -/
inductive NodeFn where
  | retrieveDocs
  | generateAnswer
  deriving DecidableEq, Repr

/-- A langgraph `StateGraph` under construction. -/
structure StateGraphB where
  nodes : List (String × NodeFn) := []
  edges : List (String × String) := []
  entry : Option String := none
  deriving DecidableEq, Repr

/-- The END sentinel of langgraph. -/
def endKey : String := "__end__"

/-- langgraph `StateGraph.add_node`: adding a node under a name already
present raises `ValueError`. -/
def add_node (b : StateGraphB) (name : String) (fn : NodeFn) :
    Except PyErr StateGraphB :=
  if b.nodes.any (fun p => p.1 = name) then
    .error (.valueError ("Node `" ++ name ++ "` already present."))
  else .ok { b with nodes := b.nodes ++ [(name, fn)] }

/-- langgraph `StateGraph.set_entry_point`. -/
def set_entry_point (b : StateGraphB) (name : String) : StateGraphB :=
  { b with entry := some name }

/-- langgraph `StateGraph.add_edge` (validation is deferred to
`compileGraph`). -/
def add_edge (b : StateGraphB) (src dst : String) : StateGraphB :=
  { b with edges := b.edges ++ [(src, dst)] }

/-- langgraph `StateGraph.compile`: every edge endpoint must be a
declared node or the END sentinel, and an entry point must exist. -/
def compileGraph (b : StateGraphB) : Except PyErr StateGraphB :=
  if b.entry = none then
    .error (.valueError "Graph must have an entrypoint")
  else if b.edges.all (fun e =>
      (b.nodes.any (fun p => p.1 = e.1)) &&
      (e.2 = endKey || b.nodes.any (fun p => p.1 = e.2))) then
    .ok b
  else
    .error (.valueError "Found edge referencing unknown node")

/-- `GraphBuilder.build`: adds `retrieve_docs` under the name
`"retriever"`, then `generate_answer` under the same name `"retriever"`,
sets the entry point, wires `retriever → responder → END`, and
compiles. -/
def build : Except PyErr StateGraphB := do
  let b : StateGraphB := {}
  let b ← add_node b "retriever" .retrieveDocs
  let b ← add_node b "retriever" .generateAnswer
  let b := set_entry_point b "retriever"
  let b := add_edge b "retriever" "responder"
  let b := add_edge b "responder" endKey
  compileGraph b

/-- Execution of a compiled graph: start at a node, run its function,
follow its outgoing edge until END; `fuel` bounds the walk.  `interp`
gives each wired node function its meaning. -/
def invokeGraph (interp : NodeFn → RAGState → Except PyErr RAGState)
    (g : StateGraphB) : Nat → String → RAGState → Except PyErr RAGState
  | 0, _, _ => .error (.runtimeError "recursion limit reached")
  | fuel + 1, node, s =>
    match g.nodes.find? (fun p => p.1 = node) with
    | none => .error (.valueError ("unknown node " ++ node))
    | some (_, fn) => do
        let s' ← interp fn s
        match g.edges.find? (fun p => p.1 = node) with
        | none => .ok s'
        | some (_, next) =>
            if next = endKey then .ok s'
            else invokeGraph interp g fuel next s'

/-- `GraphBuilder.run(query)`: builds the graph on first use, then
invokes it on the initial state `RAGState(query=query)` (whose other
fields take their defaults). -/
def GraphBuilder_run (interp : NodeFn → RAGState → Except PyErr RAGState)
    (query : String) : Except PyErr RAGState := do
  let g ← build
  let intial_state : RAGState := { query := query }
  match g.entry with
  | none => .error (.valueError "Graph must have an entrypoint")
  | some e =>
      invokeGraph interp g (g.nodes.length + g.edges.length + 1) e intial_state

/-! ## Document processor (src/document_ingestion/document_processor.py)

The filesystem and network are opaque collaborators gathered in `FS`;
every touch of them by the embedded loaders is recorded in a trace of
`FSOp` values, so "does not read the file" is a statement about the
trace.  Loader results are `Except PyErr` paired with that trace. -/

/-- One observable interaction with the filesystem or the network. -/
inductive FSOp where
  | existsCheck (path : String)
  | isFileCheck (path : String)
  | isDirCheck (path : String)
  | readTxt (path : String)
  | readPdfDir (path : String)
  | fetchUrl (url : String)
  deriving DecidableEq, Repr

/-- True for the pure existence/type checks; false for operations that
read contents. -/
def FSOp.isCheckOnly : FSOp → Bool
  | .existsCheck _ => true
  | .isFileCheck _ => true
  | .isDirCheck _ => true
  | _ => false

/-- The external filesystem/network collaborators: `Path.exists`,
`Path.is_file`, `Path.is_dir`, `TextLoader.load`,
`PyPDFDirectoryLoader.load`, `WebBaseLoader.load` (the last three may
fail with an underlying error message). -/
structure FS where
  pathExists : String → Bool
  isFile : String → Bool
  isDir : String → Bool
  readTxt : String → Except String (List Document)
  readPdfDir : String → Except String (List Document)
  fetchUrl : String → Except String (List Document)

/-- True exactly when the result is a raised `ValueError`, the `InvalidInput`
kind of the spec. -/
def isInvalidInput {α : Type} : Except PyErr α → Bool
  | .error (.valueError _) => true
  | _ => false

/-- Index of the last dot in a character list (Python `str.rfind` with a dot). -/
def lastDotIdx (cs : List Char) : Option Nat :=
  ((List.range cs.length).filter (fun i => cs.getD i ' ' = '.')).getLast?

/-- Splitting a character list at a separator character (the list of
components, empty components kept). -/
def splitOnChar (sep : Char) : List Char → List (List Char)
  | [] => [[]]
  | c :: rest =>
      match splitOnChar sep rest with
      | [] => if c = sep then [[], []] else [[c]]
      | h :: t => if c = sep then [] :: h :: t else (c :: h) :: t

/-- `pathlib.PurePath.suffix`: the extension of the final path
component; a leading or trailing dot yields no suffix. -/
def pathSuffix (p : String) : String :=
  let name := (splitOnChar '/' p.toList).getLastD []
  match lastDotIdx name with
  | some i => if 0 < i && i + 1 < name.length then String.mk (name.drop i) else ""
  | none => ""

/-- Scheme of a URL as far as the embedded loaders need it: the part
before `"://"` (`urlparse(url).scheme` for the http/https URLs the
dispatcher routes here). -/
def urlScheme (url : String) : String :=
  match url.splitOn "://" with
  | s :: _ :: _ => s
  | _ => ""

/-- `DocumentProcessor.load_from_url`. -/
def load_from_url (fs : FS) (url : String) :
    Except PyErr (List Document) × List FSOp :=
  if url = "" then
    (.error (.valueError "Parameter url must be a non-empty string."), [])
  else if urlScheme url ≠ "http" && urlScheme url ≠ "https" then
    (.error (.valueError ("Unsupported URL scheme " ++ urlScheme url
      ++ ". Only http and https are allowed.")), [])
  else
    match fs.fetchUrl url with
    | .ok docs => (.ok docs, [.fetchUrl url])
    | .error _ =>
        (.error (.runtimeError ("Failed to load documents from URL: " ++ url)),
         [.fetchUrl url])

/-- `DocumentProcessor.load_from_pdf_dir`. -/
def load_from_pdf_dir (fs : FS) (directory : String) :
    Except PyErr (List Document) × List FSOp :=
  if directory = "" then
    (.error (.valueError "Parameter directory must be a non-empty string or Path."), [])
  else if !fs.pathExists directory then
    (.error (.valueError ("Directory does not exist: " ++ directory)),
     [.existsCheck directory])
  else if !fs.isDir directory then
    (.error (.valueError ("Provided path is not a directory: " ++ directory)),
     [.existsCheck directory, .isDirCheck directory])
  else
    match fs.readPdfDir directory with
    | .ok docs =>
        (.ok docs,
         [.existsCheck directory, .isDirCheck directory, .readPdfDir directory])
    | .error _ =>
        (.error (.runtimeError
          ("Failed to load PDF documents from directory: " ++ directory)),
         [.existsCheck directory, .isDirCheck directory, .readPdfDir directory])

/-- `DocumentProcessor.load_from_txt`: empty-path, existence, is-file and
extension checks in source order, then the `TextLoader` read. -/
def load_from_txt (fs : FS) (file_path : String) :
    Except PyErr (List Document) × List FSOp :=
  if file_path = "" then
    (.error (.valueError "Parameter file_path must be a non-empty string or Path."), [])
  else if !fs.pathExists file_path then
    (.error (.valueError ("File does not exist: " ++ file_path)),
     [.existsCheck file_path])
  else if !fs.isFile file_path then
    (.error (.valueError ("Provided path is not a file: " ++ file_path)),
     [.existsCheck file_path, .isFileCheck file_path])
  else if strLower (pathSuffix file_path) ≠ ".txt" then
    (.error (.valueError ("Unsupported file type for load_from_txt: "
      ++ pathSuffix file_path ++ " (expected .txt).")),
     [.existsCheck file_path, .isFileCheck file_path])
  else
    match fs.readTxt file_path with
    | .ok docs =>
        (.ok docs,
         [.existsCheck file_path, .isFileCheck file_path, .readTxt file_path])
    | .error _ =>
        (.error (.runtimeError
          ("Failed to load text document(s) from file: " ++ file_path)),
         [.existsCheck file_path, .isFileCheck file_path, .readTxt file_path])

/-- Loop body of `DocumentProcessor.load_documents`: skip falsy entries,
route `http(s)://` strings to the URL loader, otherwise resolve as a
path (existence check, directory → PDF loader, `.txt` file → text
loader, anything else → `ValueError`); a loader failure aborts the
batch.  Appending an empty result equals the guarded `extend` of Python. -/
def load_documents_go (fs : FS) :
    List String → List Document → List FSOp →
    Except PyErr (List Document) × List FSOp
  | [], docs, tr => (.ok docs, tr)
  | source :: rest, docs, tr =>
    if source = "" then load_documents_go fs rest docs tr
    else if source.startsWith "http://" || source.startsWith "https://" then
      match load_from_url fs source with
      | (.ok ld, ops) => load_documents_go fs rest (docs ++ ld) (tr ++ ops)
      | (.error e, ops) => (.error e, tr ++ ops)
    else
      let tr1 := tr ++ [FSOp.existsCheck source]
      if !fs.pathExists source then
        (.error (.valueError ("Source path does not exist: " ++ source)), tr1)
      else
        let tr2 := tr1 ++ [FSOp.isDirCheck source]
        if fs.isDir source then
          match load_from_pdf_dir fs source with
          | (.ok ld, ops) => load_documents_go fs rest (docs ++ ld) (tr2 ++ ops)
          | (.error e, ops) => (.error e, tr2 ++ ops)
        else if strLower (pathSuffix source) = ".txt" then
          match load_from_txt fs source with
          | (.ok ld, ops) => load_documents_go fs rest (docs ++ ld) (tr2 ++ ops)
          | (.error e, ops) => (.error e, tr2 ++ ops)
        else
          (.error (.valueError ("Unsupported file type: "
            ++ strLower (pathSuffix source) ++ " (source: " ++ source ++ ")")),
           tr2)

/-- `DocumentProcessor.load_documents(sources)`: rejects an empty
sequence, then folds the dispatcher over the sources in order. -/
def load_documents (fs : FS) (sources : List String) :
    Except PyErr (List Document) × List FSOp :=
  if sources = [] then
    (.error (.valueError "Parameter sources must be a non-empty sequence."), [])
  else load_documents_go fs sources [] []

/-! ## Chunker (`DocumentProcessor.split_documents`)

The splitting algorithm itself lives in the external
`langchain_text_splitters.RecursiveCharacterTextSplitter`, which is not
part of this repository; `split_documents` only delegates to the
splitter configured with `chunk_size` and `chunk_overlap`. -/

/-- Modelled from the spec: the window-splitting pass of the Chunker
(§4.2), standing in for the external `RecursiveCharacterTextSplitter`
missing from the sources.  The content is repeatedly cut into windows of
at most `size` characters, each window after the first beginning
`overlap` characters before the end of the previous window; the final window
takes the remaining text. -/
def splitText (size overlap : Nat) (cs : List Char) : List (List Char) :=
  if _h : size < cs.length ∧ overlap < size then
    cs.take size :: splitText size overlap (cs.drop (size - overlap))
  else [cs]
termination_by cs.length
decreasing_by
  simp only [List.length_drop]
  omega

/-- Splitting one `Document`: each window becomes a chunk carrying the
metadata of the parent document. -/
def splitDocument (size overlap : Nat) (d : Document) : List Document :=
  (splitText size overlap d.page_content.toList).map
    (fun cs => { page_content := String.mk cs, metadata := d.metadata })

/-- `DocumentProcessor.split_documents(documents)`: `[]` for empty
input, otherwise every document is split and the chunk lists are
concatenated in document order. -/
def split_documents (size overlap : Nat) (documents : List Document) :
    List Document :=
  if documents = [] then []
  else documents.flatMap (splitDocument size overlap)

/-- Exact character overlap of `overlap` characters between two
consecutive character windows: the last `overlap` characters of the
first window are the first `overlap` characters of the second (which has
at least `overlap` of them). -/
def charOverlapRel (overlap : Nat) (c1 c2 : List Char) : Prop :=
  overlap ≤ c2.length ∧ c1.drop (c1.length - overlap) = c2.take overlap

instance (overlap : Nat) : DecidableRel (charOverlapRel overlap) :=
  fun _ _ => inferInstanceAs (Decidable (_ ∧ _))

/-- `charOverlapRel` lifted to chunk documents. -/
def overlapRel (overlap : Nat) (c1 c2 : Document) : Prop :=
  charOverlapRel overlap c1.page_content.toList c2.page_content.toList

instance (overlap : Nat) : DecidableRel (overlapRel overlap) :=
  fun _ _ => inferInstanceAs (Decidable (_ ∧ _))

/-! ## Concrete fixtures used by witnesses and counterexamples -/

/-- A sample indexed document. -/
def docA : Document :=
  { page_content := "Paris is the capital of France."
    metadata := [("source", "doc1.txt")] }

/-- A ten-character document for the chunking witness. -/
def docC : Document :=
  { page_content := "abcdefghij" }

/-- A concrete similarity search: the first `k` indexed documents. -/
def search0 : List Document → String → Nat → List Document :=
  fun docs _ k => docs.take k

/-- The vector store state after `create_retriever([docA], k=4)`. -/
def vs1c : VectorStore :=
  { vectorstore := some [docA], retriever := some { search_k := 4 } }

/-- A concrete retriever collaborator. -/
def retr0 : String → List Document :=
  fun _ => [docA]

/-- A concrete filesystem: only the regular file `readme.md` exists, and
all content reads succeed trivially. -/
def fs0 : FS :=
  { pathExists := fun p => p == "readme.md"
    isFile := fun p => p == "readme.md"
    isDir := fun _ => false
    readTxt := fun _ => .ok []
    readPdfDir := fun _ => .ok []
    fetchUrl := fun _ => .error "network unavailable" }

/-! ## Claim theorems -/

/-- C1: the claim states that the compiled graph is the two-stage chain
retrieve → generate and that `run(q)` returns the final workflow state.
On the code this fails: `GraphBuilder.build` registers both node
functions under the one name `"retriever"` (and wires edges to the
never-registered `"responder"`), so the builder raises `ValueError` and
`run` propagates that error for every query instead of returning a
state. -/
theorem graph_build_run_raises :
    build = .error (.valueError "Node `retriever` already present.") ∧
    ∀ (interp : NodeFn → RAGState → Except PyErr RAGState) (q : String),
      GraphBuilder_run interp q
        = .error (.valueError "Node `retriever` already present.") :=
  ⟨rfl, fun _ _ => rfl⟩

/-- C2: the claim states that the generate stage returns a new state
with `response` populated and `query`, `retrieved_docs` preserved.  The
single-shot `RAGNodes.generate_answer` (nodes.py) instead reads
`state.documents`, an attribute `RAGState` does not declare, so it
raises `AttributeError` for every input state and never returns. -/
theorem generate_answer_single_attribute_error :
    ∀ (llm : String → LLMMessage) (s : RAGState),
      Nodes.generate_answer llm s = .error (.attributeError "documents") :=
  fun _ _ => rfl

/-- C3 counterexample: after `create_retriever([docA], k=4)`, calling
`retrieve(query, k=2)` leaves the stored default at 2, not at the
remembered 4 the claim asserts. -/
theorem retrieve_k_persists_cex :
    create_retriever ({} : VectorStore) [docA] 4 = .ok vs1c ∧
    retrieve search0 vs1c "q" 2
      = .ok ([docA],
             { vectorstore := some [docA], retriever := some { search_k := 2 } }) ∧
    ({ search_k := 2 } : Retriever) ≠ { search_k := 4 } := by
  refine ⟨rfl, rfl, by decide⟩

/-- C3 amended: an explicit `k` passed to `retrieve` overwrites the
stored default of the retriever: after the call the stored result count
is `k` (for this and all later calls), not the `d` remembered by
`create_retriever`; the call itself searches with `k`. -/
theorem retrieve_k_overrides_spec :
    ∀ (search : List Document → String → Nat → List Document)
      (vs : VectorStore) (docs : List Document) (d : Nat) (vs1 : VectorStore)
      (q : String) (k : Nat),
      create_retriever vs docs d = .ok vs1 →
      retrieve search vs1 q k
        = .ok (search docs q k,
               { vectorstore := some docs, retriever := some { search_k := k } }) := by
  intro search vs docs d vs1 q k h
  unfold create_retriever at h
  split at h
  · simp at h
  · injection h with h'
    subst h'
    rfl

/-- C3 witness: the amended statement at the concrete store `vs1c`. -/
theorem retrieve_k_overrides_spec_witness :
    create_retriever ({} : VectorStore) [docA] 4 = .ok vs1c ∧
    retrieve search0 vs1c "q" 2
      = .ok (search0 [docA] "q" 2,
             { vectorstore := some [docA], retriever := some { search_k := 2 } }) :=
  ⟨rfl, retrieve_k_overrides_spec search0 {} [docA] 4 vs1c "q" 2 rfl⟩

/-- C4 counterexample: on a state whose `response` is non-empty, the
single-shot retrieve stage (nodes.py) does not carry `response` over —
it rebuilds the state without passing `response`, which therefore falls
back to the field default `""`. -/
theorem retrieve_docs_response_cex :
    (Nodes.retrieve_docs retr0
        { query := "q", retrieved_docs := [], response := "prev" }).response
      ≠ ({ query := "q", retrieved_docs := [], response := "prev" } : RAGState).response := by
  decide

/-- C4 amended: both retrieve stages populate `retrieved_docs` with the
retriever results for `s.query` and preserve `query`; the agentic
variant (reactnode.py) passes `response` through unchanged, while the
single-shot variant (nodes.py) resets `response` to the default `""`,
which coincides with `s.response` only when that field is empty (as it
is in the initial workflow state). -/
theorem retrieve_docs_frame_spec :
    ∀ (rf : String → List Document) (s : RAGState),
      ReactNode.retrieve_docs rf s
        = { query := s.query, retrieved_docs := rf s.query, response := s.response } ∧
      Nodes.retrieve_docs rf s
        = { query := s.query, retrieved_docs := rf s.query, response := "" } :=
  fun _ _ => ⟨rfl, rfl⟩

/-- C6 counterexample: when the agent produces no message, the response
is the literal `"Could not generate response."` — which differs from the
claimed fallback text `"could not generate response"` even under
case-insensitive comparison, because of the trailing period. -/
theorem empty_answer_fallback_cex :
    eqCaseInsensitive
      (ReactNode.generate_answer (fun _ => []) ({ query := "q" } : RAGState)).response
      "could not generate response" = false := by
  decide

/-- C6 amended: if the reasoning loop produces no message, the agentic
generate stage does not raise: it returns a new state whose `response`
is the fixed fallback string `"Could not generate response."` (the
phrase of the claim up to capitalization and a trailing period), with
`query` and `retrieved_docs` preserved. -/
theorem empty_answer_fallback_spec :
    ∀ (agent : String → List Message) (s : RAGState),
      agent s.query = [] →
      ReactNode.generate_answer agent s
        = { query := s.query, retrieved_docs := s.retrieved_docs,
            response := "Could not generate response." } := by
  intro agent s h
  unfold ReactNode.generate_answer
  rw [h]
  rfl

/-- C6 witness: the amended statement for an agent returning no
messages. -/
theorem empty_answer_fallback_spec_witness :
    (fun _ : String => ([] : List Message)) "q" = [] ∧
    ReactNode.generate_answer (fun _ => []) ({ query := "q" } : RAGState)
      = { query := "q", retrieved_docs := [],
          response := "Could not generate response." } :=
  ⟨rfl, empty_answer_fallback_spec (fun _ => []) { query := "q" } rfl⟩

/-- C7: before `create_retriever` has succeeded both `get_retriever` and
`retrieve` raise the not-initialized `ValueError` for every query; after
a successful `create_retriever` both return normally. -/
theorem vectorstore_initialization_spec :
    ∀ (vs : VectorStore) (search : List Document → String → Nat → List Document)
      (q : String) (k : Nat) (docs : List Document) (d : Nat) (vs1 : VectorStore),
      (vs.retriever = none →
        get_retriever vs = .error (.valueError notInitializedMsg) ∧
        retrieve search vs q k = .error (.valueError notInitializedMsg)) ∧
      (create_retriever vs docs d = .ok vs1 →
        (∃ r, get_retriever vs1 = .ok r) ∧
        ∃ out, retrieve search vs1 q k = .ok out) := by
  intro vs search q k docs d vs1
  constructor
  · intro h
    constructor
    · unfold get_retriever
      rw [h]
    · unfold retrieve
      rw [h]
  · intro h
    unfold create_retriever at h
    split at h
    · simp at h
    · injection h with h'
      subst h'
      exact ⟨⟨_, rfl⟩, _, rfl⟩

/-- C7 witness: a fresh store raises on both entry points; after
`create_retriever([docA], k=4)` both succeed. -/
theorem vectorstore_initialization_spec_witness :
    (get_retriever ({} : VectorStore) = .error (.valueError notInitializedMsg) ∧
     retrieve search0 ({} : VectorStore) "q" 3
       = .error (.valueError notInitializedMsg)) ∧
    ((∃ r, get_retriever vs1c = .ok r) ∧
     ∃ out, retrieve search0 vs1c "q" 3 = .ok out) :=
  ⟨(vectorstore_initialization_spec {} search0 "q" 3 [docA] 4 vs1c).1 rfl,
   (vectorstore_initialization_spec {} search0 "q" 3 [docA] 4 vs1c).2 rfl⟩

/-- C8: the retriever tool returns the blank-line-joined concatenation
of at most the first 8 retrieved results, the `i`-th rendered as the
numbered block `[i] title` newline content (1-based), and the fixed
sentinel text when retrieval is empty. -/
theorem retriever_tool_spec :
    ∀ (rf : String → List Document) (q : String),
      (rf q = [] → ReactNode.retriever_tool_fn rf q = "No documents found.") ∧
      (rf q ≠ [] →
        ReactNode.retriever_tool_fn rf q
          = String.intercalate "\n\n"
              (((rf q).take 8).enum.map
                (fun p => ReactNode.numberedBlock (p.1 + 1) p.2)) ∧
        (((rf q).take 8).enum.map
            (fun p => ReactNode.numberedBlock (p.1 + 1) p.2)).length
          = min 8 (rf q).length) := by
  intro rf q
  constructor
  · intro h
    simp [ReactNode.retriever_tool_fn, h]
  · intro h
    refine ⟨by simp [ReactNode.retriever_tool_fn, h], ?_⟩
    simp [List.enum_length, List.length_take]

/-- C8 witness: the sentinel on an empty retrieval and the rendered
block on a one-document retrieval. -/
theorem retriever_tool_spec_witness :
    ReactNode.retriever_tool_fn (fun _ => []) "q" = "No documents found." ∧
    ReactNode.retriever_tool_fn (fun _ => [docA]) "q"
      = String.intercalate "\n\n"
          ((([docA]).take 8).enum.map
            (fun p => ReactNode.numberedBlock (p.1 + 1) p.2)) :=
  ⟨(retriever_tool_spec (fun _ => []) "q").1 rfl,
   ((retriever_tool_spec (fun _ => [docA]) "q").2 (by decide)).1⟩

/-- C9: for any path that exists and is a regular file but whose suffix
is not `.txt` case-insensitively, `load_from_txt` fails with an
`InvalidInput`-kind `ValueError` and its filesystem trace holds only
existence/type checks — the content of the file is never read. -/
theorem load_from_txt_wrong_extension_spec :
    ∀ (fs : FS) (p : String),
      fs.pathExists p = true →
      fs.isFile p = true →
      strLower (pathSuffix p) ≠ ".txt" →
      isInvalidInput (load_from_txt fs p).1 = true ∧
      (load_from_txt fs p).2.all FSOp.isCheckOnly = true := by
  intro fs p hex hf hsuf
  unfold load_from_txt
  by_cases hp : p = ""
  · simp [hp, isInvalidInput]
  · simp [hp, hex, hf, hsuf, isInvalidInput, FSOp.isCheckOnly]

/-- C9 witness: `load_from_txt("readme.md")` on a filesystem where
`readme.md` is an existing regular file. -/
theorem load_from_txt_wrong_extension_witness :
    fs0.pathExists "readme.md" = true ∧
    fs0.isFile "readme.md" = true ∧
    strLower (pathSuffix "readme.md") ≠ ".txt" ∧
    (isInvalidInput (load_from_txt fs0 "readme.md").1 = true ∧
     (load_from_txt fs0 "readme.md").2.all FSOp.isCheckOnly = true) :=
  ⟨rfl, rfl, by decide,
   load_from_txt_wrong_extension_spec fs0 "readme.md" rfl rfl (by decide)⟩

/-- Helper for C10: the dispatcher loop returns its accumulators
untouched when every remaining source is falsy. -/
theorem load_documents_go_all_empty (fs : FS) :
    ∀ (sources : List String) (docs : List Document) (tr : List FSOp),
      (∀ s ∈ sources, s = "") →
      load_documents_go fs sources docs tr = (.ok docs, tr) := by
  intro sources
  induction sources with
  | nil => intro docs tr _; rfl
  | cons a rest ih =>
      intro docs tr h
      have ha : a = "" := h a (List.mem_cons_self a rest)
      rw [load_documents_go, if_pos ha]
      exact ih docs tr (fun s hs => h s (List.mem_cons_of_mem a hs))

/-- C10: a non-empty sources sequence whose entries are all falsy
(empty strings) raises nothing: the emptiness check only rejects the
sequence itself being empty, every falsy entry is skipped before
classification, and the result is the empty document list with an empty
filesystem trace. -/
theorem load_documents_all_falsy_spec :
    ∀ (fs : FS) (sources : List String),
      sources ≠ [] →
      (∀ s ∈ sources, s = "") →
      load_documents fs sources = (.ok [], []) := by
  intro fs sources h1 h2
  unfold load_documents
  rw [if_neg h1]
  exact load_documents_go_all_empty fs sources [] [] h2

/-- C10 witness: two empty-string sources. -/
theorem load_documents_all_falsy_witness :
    (["", ""] : List String) ≠ [] ∧
    (∀ s ∈ (["", ""] : List String), s = "") ∧
    load_documents fs0 ["", ""] = (.ok [], []) :=
  ⟨by decide, by decide,
   load_documents_all_falsy_spec fs0 ["", ""] (by decide) (by decide)⟩

/-- Helper for C5: with `overlap < size` every window list starts with
the `size`-prefix of the text. -/
theorem splitText_head (size overlap : Nat) (hko : overlap < size)
    (cs : List Char) :
    ∃ tl, splitText size overlap cs = cs.take size :: tl := by
  rw [splitText]
  split
  · exact ⟨_, rfl⟩
  · rename_i h
    have hle : cs.length ≤ size := by omega
    exact ⟨[], by rw [List.take_of_length_le hle]⟩

/-- Helper for C5: every window of `splitText` has at most `size`
characters, and consecutive windows share exactly `overlap`
characters. -/
theorem splitText_spec (size overlap : Nat) (hko : overlap < size)
    (cs : List Char) :
    (∀ c ∈ splitText size overlap cs, c.length ≤ size) ∧
    List.Chain' (charOverlapRel overlap) (splitText size overlap cs) := by
  induction cs using splitText.induct size overlap with
  | case1 x h ih =>
    rw [splitText, dif_pos h]
    constructor
    · intro c hc
      rw [List.mem_cons] at hc
      rcases hc with rfl | hc
      · simp only [List.length_take]
        omega
      · exact ih.1 _ hc
    · rw [List.chain'_cons']
      refine ⟨?_, ih.2⟩
      intro y hy
      obtain ⟨tl, htl⟩ := splitText_head size overlap hko (x.drop (size - overlap))
      rw [htl] at hy
      simp only [List.head?_cons, Option.mem_def, Option.some.injEq] at hy
      subst hy
      constructor
      · simp only [List.length_take, List.length_drop]
        omega
      · have hlen : (x.take size).length = size := by
          simp only [List.length_take]
          omega
        rw [hlen, List.drop_take size (size - overlap) x, List.take_take]
        have h1 : size - (size - overlap) = overlap := by omega
        have h2 : min overlap size = overlap := by omega
        rw [h1, h2]
  | case2 x h =>
    rw [splitText, dif_neg h]
    refine ⟨?_, List.chain'_singleton _⟩
    intro c hc
    simp only [List.mem_singleton] at hc
    subst hc
    omega

/-- C5: for a valid configuration (`chunk_overlap < chunk_size`) and a
non-empty document list, `split_documents` yields the per-document chunk
lists in order, every chunk has at most `chunk_size` characters, and any
two consecutive chunks of the same document overlap by exactly
`chunk_overlap` characters (the final chunk may be shorter, with no
trailing overlap required of it). -/
theorem split_documents_spec :
    ∀ (size overlap : Nat) (documents : List Document),
      overlap < size →
      documents ≠ [] →
      split_documents size overlap documents
        = documents.flatMap (splitDocument size overlap) ∧
      ∀ d ∈ documents,
        (∀ c ∈ splitDocument size overlap d, c.page_content.length ≤ size) ∧
        List.Chain' (overlapRel overlap) (splitDocument size overlap d) := by
  intro size overlap documents hko hne
  constructor
  · rw [split_documents, if_neg hne]
  · intro d _
    have h := splitText_spec size overlap hko d.page_content.toList
    constructor
    · intro c hc
      rw [splitDocument, List.mem_map] at hc
      obtain ⟨cs, hcs, rfl⟩ := hc
      have := h.1 cs hcs
      simpa using this
    · rw [splitDocument, List.chain'_map]
      exact h.2.imp (fun a b hab => hab)

/-- C5 witness: chunking one ten-character document with
`chunk_size = 5`, `chunk_overlap = 2`. -/
theorem split_documents_spec_witness :
    2 < 5 ∧ ([docC] : List Document) ≠ [] ∧
    (split_documents 5 2 [docC] = [docC].flatMap (splitDocument 5 2) ∧
     ∀ d ∈ [docC],
       (∀ c ∈ splitDocument 5 2 d, c.page_content.length ≤ 5) ∧
       List.Chain' (overlapRel 2) (splitDocument 5 2 d)) :=
  ⟨by decide, by simp,
   split_documents_spec 5 2 [docC] (by decide) (by simp)⟩

end PapertrailRag
